import Mathlib

/-!
Verification of the server lifecycle and request-admission layer of the
`duckai` gateway (file `src/serve/mod.rs`): bearer-token authorization,
TLS/plaintext listener selection, transport options, CORS mirroring,
configuration loading, graceful shutdown, and the error-to-response mapping.
Each Rust function used by a claim is embedded as an executable Lean
definition; items of the crate that are referenced by `serve/mod.rs` but whose
sources are not available (the `Error` enum declaration, `Config`'s defaults,
the CORS mirroring semantics of the `tower_http` layer, the shutdown signal
task) are modelled from the specification and marked as such.
-/

namespace Duckai

/-- Modelled from the spec: the declaration of `crate::error::Error` lives in
`src/error.rs`, which is not part of the sources under review; only its use
sites in `serve/mod.rs` are.  The spec's taxonomy (§7) names
`JsonExtractorRejection` (malformed request body, carrying the body parser's
rejection text), `InvalidApiKey`, and "everything else", represented here by a
catch-all variant carrying its display text. -/
inductive Error where
  | JsonExtractorRejection (bodyText : String)
  | InvalidApiKey
  | Other (displayText : String)
  deriving DecidableEq, Repr

/-- Modelled from the spec: the `Display` impl of `crate::error::Error` is not
under the sources reviewed; the spec only requires the wire message to be
"the error's display text".  For `JsonExtractorRejection` the code uses
`json_rejection.body_text()` instead of `Display`, also represented here. -/
def Error.display : Error → String
  | .JsonExtractorRejection t => t
  | .InvalidApiKey => "invalid api key"
  | .Other t => t

/-- `body_text()` of the JSON extractor rejection, as used at
`serve/mod.rs:181`; returns the rejection text carried by the variant. -/
def Error.body_text : Error → String
  | .JsonExtractorRejection t => t
  | .InvalidApiKey => ""
  | .Other _ => ""

/-- Embedding of `AppState::valid_key` (`serve/mod.rs:40-51`).
`state_api_key` is the `api_key` field of `AppState`; `bearer` is
`bearer.as_deref().map(|b| b.token())`, i.e. the token of the request's
`Authorization: Bearer` header when present.  The Rust body is:
`if let Some(key) = self.api_key.as_deref() { if Some(key) != api_key
{ return Err(Error::InvalidApiKey); } } Ok(())`. -/
def valid_key (state_api_key : Option String) (bearer : Option String) :
    Except Error Unit :=
  let api_key := bearer
  match state_api_key with
  | some key => if some key ≠ api_key then .error .InvalidApiKey else .ok ()
  | none => .ok ()

/-- The two kinds of listener `run` can bind. -/
inductive Listener where
  | tls
  | plaintext
  deriving DecidableEq, Repr

/-- The listener-selection branch of `run` (`serve/mod.rs:101-136`):
`match (config.tls_cert.as_ref(), config.tls_key.as_ref()) { (Some(cert),
Some(key)) => ⟨bind_rustls⟩, _ => ⟨bind⟩ }`.  The arguments are the two
optional paths from the configuration. -/
def selectListener (tls_cert tls_key : Option String) : Listener :=
  match tls_cert, tls_key with
  | some _, some _ => .tls
  | _, _ => .plaintext

/-- The transport options `run` sets on a bound server through
`http_builder()`: HTTP/1.1 header-case preservation, the HTTP/2 keep-alive
interval (`config.tcp_keepalive.map(Duration::from_secs)`, recorded here in
seconds), and whether an HTTP/2 timer (`TokioTimer`) is installed. -/
structure TransportConfig where
  preserve_header_case : Bool
  http2_keep_alive_interval : Option Nat
  http2_timer : Bool
  deriving DecidableEq, Repr

/-- Transport options applied on the TLS branch (`serve/mod.rs:107-114`):
`.http1().preserve_header_case(true).http2().timer(TokioTimer::new())
.keep_alive_interval(tcp_keepalive)`. -/
def tlsTransport (tcp_keepalive : Option Nat) : TransportConfig :=
  { preserve_header_case := true
    http2_keep_alive_interval := tcp_keepalive
    http2_timer := true }

/-- Transport options applied on the plaintext branch (`serve/mod.rs:123-129`):
`.http1().preserve_header_case(true).http2()
.keep_alive_interval(tcp_keepalive)` — the same calls as the TLS branch except
that no `.timer(TokioTimer::new())` call appears. -/
def plainTransport (tcp_keepalive : Option Nat) : TransportConfig :=
  { preserve_header_case := true
    http2_keep_alive_interval := tcp_keepalive
    http2_timer := false }

/-- The JSON error envelope built inside `IntoResponse for Error`
(`serve/mod.rs:167-174`): `message`, `type` (serde-renamed from `type_field`),
and `param`, whose builder default is `None`. -/
structure ResponseError where
  message : String
  type_field : String
  param : Option String
  deriving DecidableEq, Repr

/-- Embedding of `impl IntoResponse for Error` (`serve/mod.rs:165-209`): maps
an error to an HTTP status code and a `ResponseError` body.
`JsonExtractorRejection` yields 400 with the rejection's `body_text()`;
`InvalidApiKey` yields 401 with `self.to_string()`; the wildcard arm — every
remaining variant, represented by `Other` — yields 500 with
`self.to_string()`.  No arm sets `param`, so the builder default `None`
applies everywhere. -/
def into_response : Error → Nat × ResponseError
  | .JsonExtractorRejection t =>
      (400, { message := Error.body_text (.JsonExtractorRejection t)
              type_field := "invalid_request_error"
              param := none })
  | .InvalidApiKey =>
      (401, { message := Error.display .InvalidApiKey
              type_field := "invalid_request_error"
              param := none })
  | .Other t =>
      (500, { message := Error.display (.Other t)
              type_field := "server_error"
              param := none })

/-- A per-header CORS allow setting: mirror the caller's requested value, or
answer from a static list.  `run` only ever uses `mirror`. -/
inductive AllowSetting where
  | mirror
  | exactList (values : List String)
  deriving DecidableEq, Repr

/-- The four knobs of the `CorsLayer` as set in `run`. -/
structure CorsLayerConfig where
  allow_credentials : Bool
  allow_headers : AllowSetting
  allow_methods : AllowSetting
  allow_origin : AllowSetting
  deriving DecidableEq, Repr

/-- The CORS layer built in `run` (`serve/mod.rs:66-72`):
`CorsLayer::new().allow_credentials(true)
.allow_headers(AllowHeaders::mirror_request())
.allow_methods(AllowMethods::mirror_request())
.allow_origin(AllowOrigin::mirror_request())`. -/
def global_layer_cors : CorsLayerConfig :=
  { allow_credentials := true
    allow_headers := .mirror
    allow_methods := .mirror
    allow_origin := .mirror }

/-- The CORS request headers of an inbound request: `Origin`,
`Access-Control-Request-Method`, `Access-Control-Request-Headers`. -/
structure CorsRequest where
  origin : Option String
  access_control_request_method : Option String
  access_control_request_headers : Option String
  deriving DecidableEq, Repr

/-- The CORS response headers the layer emits. -/
structure CorsResponseHeaders where
  access_control_allow_origin : Option String
  access_control_allow_methods : Option String
  access_control_allow_headers : Option String
  access_control_allow_credentials : Bool
  deriving DecidableEq, Repr

/-- Modelled from the spec: the semantics of tower_http's
`AllowOrigin::mirror_request()` (and the headers/methods analogues) is library
code outside the sources reviewed.  Per the spec (§4.4, glossary), a mirror
setting echoes the caller-supplied requested value back as the allowed value,
while a list setting answers from the static list. -/
def applySetting : AllowSetting → Option String → Option String
  | .mirror, requested => requested
  | .exactList vs, _ => some (String.intercalate ", " vs)

/-- The allow headers produced for one request by a CORS layer configured as
`cfg`, with each field computed from the corresponding request header by
`applySetting`. -/
def applyCors (cfg : CorsLayerConfig) (req : CorsRequest) : CorsResponseHeaders :=
  { access_control_allow_origin := applySetting cfg.allow_origin req.origin
    access_control_allow_methods :=
      applySetting cfg.allow_methods req.access_control_request_method
    access_control_allow_headers :=
      applySetting cfg.allow_headers req.access_control_request_headers
    access_control_allow_credentials := cfg.allow_credentials }

/-- Modelled from the spec: `crate::config::Config` and its `Default` impl are
in `src/config.rs`, which is not among the sources reviewed.  Fields follow
spec §6; the spec fixes no concrete default values, only that the fallback is
the all-defaults configuration, so `Config.default` below leaves every
optional field unset. -/
structure Config where
  bind : String
  tls_cert : Option String
  tls_key : Option String
  api_key : Option String
  debug : Bool
  timeout : Option Nat
  connect_timeout : Option Nat
  tcp_keepalive : Option Nat
  deriving DecidableEq, Repr

/-- Modelled from the spec: the all-defaults `Config::default()` value; every
optional field unset, `debug` off, and a placeholder bind address (the spec
does not pin the default bind address, and no claim depends on it). -/
def Config.default : Config :=
  { bind := "0.0.0.0:0"
    tls_cert := none
    tls_key := none
    api_key := none
    debug := false
    timeout := none
    connect_timeout := none
    tcp_keepalive := none }

/-- Embedding of `init_config` (`serve/mod.rs:156-163`).  The filesystem is
abstracted by `file`: `none` when `path.is_file()` is false, `some data` when
the file exists and reads as `data`.  `parse` abstracts
`serde_yaml::from_slice::<Config>`; its error propagates unchanged, matching
the Rust `map_err(Into::into)`. -/
def init_config (file : Option (List UInt8))
    (parse : List UInt8 → Except Error Config) : Except Error Config :=
  match file with
  | none => .ok Config.default
  | some data => parse data

/-- The phases of the shutdown state machine of spec §4.3. -/
inductive Phase where
  | running
  | draining
  | stopped
  deriving DecidableEq, Repr

/-- Modelled from the spec: the shutdown coordination — the signal task
`signal::graceful_shutdown` (`src/serve/signal.rs`) and the drain behavior of
the `axum_server::Handle` that `run` wires in at `serve/mod.rs:91-95` and
`serve/mod.rs:116-134` — is not among the sources reviewed.  The spec (§4.3,
§5) describes it as the machine `Running -> Draining -> Stopped`: the server
state tracks the phase together with the requests accepted so far, those still
in flight, and those whose responses were delivered. -/
structure ServerState where
  phase : Phase
  accepted : List Nat
  inflight : List Nat
  completed : List Nat
  deriving DecidableEq, Repr

/-- The server before any event: running, with no request seen. -/
def initialState : ServerState := ⟨.running, [], [], []⟩

/-- The observable events of the shutdown machine: a new connection is
accepted, the termination signal arrives, an in-flight request completes and
its response is delivered, or the drain finishes. -/
inductive Event where
  | accept (r : Nat)
  | signal
  | complete (r : Nat)
  | drained
  deriving DecidableEq, Repr

/-- Modelled from the spec (§4.3, §5): one step of the shutdown machine.
Accepting requires `running`; the signal moves `running` to `draining`;
a request in flight may complete in any phase but `stopped` (the shutdown
handle cancels only the accept loop, never in-flight requests); the drain
finishes — `draining` to `stopped` — only once no request is in flight. -/
inductive SStep : ServerState → Event → ServerState → Prop where
  | accept (s : ServerState) (r : Nat) (h : s.phase = .running) :
      SStep s (.accept r) ⟨.running, r :: s.accepted, r :: s.inflight, s.completed⟩
  | signal (s : ServerState) (h : s.phase = .running) :
      SStep s .signal ⟨.draining, s.accepted, s.inflight, s.completed⟩
  | complete (s : ServerState) (r : Nat) (hmem : r ∈ s.inflight)
      (h : s.phase ≠ .stopped) :
      SStep s (.complete r) ⟨s.phase, s.accepted, s.inflight.erase r, r :: s.completed⟩
  | drained (s : ServerState) (h : s.phase = .draining) (hempty : s.inflight = []) :
      SStep s .drained ⟨.stopped, s.accepted, s.inflight, s.completed⟩

/-- The states the shutdown machine can reach from `initialState`. -/
inductive Reachable : ServerState → Prop where
  | init : Reachable initialState
  | step {s s' : ServerState} {e : Event} :
      Reachable s → SStep s e s' → Reachable s'

/-- Linear order of the phases along the single transition path. -/
def Phase.rank : Phase → Nat
  | .running => 0
  | .draining => 1
  | .stopped => 2

end Duckai

namespace Duckai

/-- C1: when `api_key` is configured as `some K`, `valid_key` succeeds iff the
request's bearer token is exactly `K`; any other token, and the absence of the
header, yield `Error.InvalidApiKey`. -/
theorem valid_key_configured_iff (K : String) (bearer : Option String) :
    (valid_key (some K) bearer = .ok () ↔ bearer = some K) ∧
      (bearer ≠ some K → valid_key (some K) bearer = .error .InvalidApiKey) := by
  constructor
  · constructor
    · intro h
      by_contra hne
      simp only [valid_key] at h
      rw [if_pos] at h
      · exact Except.noConfusion h
      · intro heq
        exact hne heq.symm
    · intro h
      subst h
      simp [valid_key]
  · intro hne
    simp only [valid_key]
    rw [if_pos]
    intro heq
    exact hne heq.symm

/-- Witness for C1 at the concrete key `"k"`: the matching token is accepted
and a differing token is rejected with `InvalidApiKey`. -/
theorem valid_key_configured_iff_witness :
    valid_key (some "k") (some "k") = .ok () ∧
      valid_key (some "k") (some "x") = .error .InvalidApiKey :=
  ⟨(valid_key_configured_iff "k" (some "k")).1.mpr rfl,
   (valid_key_configured_iff "k" (some "x")).2 (by decide)⟩

/-- C2: when no `api_key` is configured (`none`), `valid_key` succeeds for
every request, whatever the `Authorization` header holds, including none. -/
theorem valid_key_unset_always_ok (bearer : Option String) :
    valid_key none bearer = .ok () := rfl

/-- C10: an empty configured key `some ""` still enforces authorization: a
request without an `Authorization` header is rejected with `InvalidApiKey`, a
request whose bearer token is the empty string is accepted, and a nonempty
token is rejected; `some ""` is not treated as "no key configured". -/
theorem valid_key_empty_key_enforced :
    valid_key (some "") none = .error .InvalidApiKey ∧
      valid_key (some "") (some "") = .ok () ∧
      valid_key (some "") (some "x") = .error .InvalidApiKey := by
  refine ⟨?_, ?_, ?_⟩ <;> rfl

/-- C3: the server binds a TLS listener iff both `tls_cert` and `tls_key` are
present; in every other of the four presence combinations it binds a
plaintext listener — a partial TLS configuration selects plaintext rather
than erroring. -/
theorem selectListener_tls_iff (tls_cert tls_key : Option String) :
    (selectListener tls_cert tls_key = .tls ↔
        tls_cert.isSome = true ∧ tls_key.isSome = true) ∧
      (¬(tls_cert.isSome = true ∧ tls_key.isSome = true) →
        selectListener tls_cert tls_key = .plaintext) := by
  cases tls_cert <;> cases tls_key <;> simp [selectListener]

/-- Witness for C3: with only a certificate configured the plaintext listener
is selected, and with both certificate and key the TLS listener is. -/
theorem selectListener_tls_iff_witness :
    selectListener (some "cert.pem") none = .plaintext ∧
      selectListener (some "cert.pem") (some "key.pem") = .tls :=
  ⟨(selectListener_tls_iff (some "cert.pem") none).2 (by decide),
   (selectListener_tls_iff (some "cert.pem") (some "key.pem")).1.mpr (by decide)⟩

/-- C4: the error-to-response mapping produces exactly three wire shapes: a
JSON extractor rejection maps to 400 / `invalid_request_error` with the
rejection's body text; `InvalidApiKey` maps to 401 / `invalid_request_error`
with the error's display text; every other error maps to 500 / `server_error`
with the error's display text. -/
theorem into_response_mapping (e : Error) :
    (∀ t, e = .JsonExtractorRejection t →
        into_response e = (400, ⟨Error.body_text e, "invalid_request_error", none⟩)) ∧
      (e = .InvalidApiKey →
        into_response e = (401, ⟨Error.display e, "invalid_request_error", none⟩)) ∧
      ((∀ t, e ≠ .JsonExtractorRejection t) → e ≠ .InvalidApiKey →
        into_response e = (500, ⟨Error.display e, "server_error", none⟩)) := by
  cases e with
  | JsonExtractorRejection t =>
      exact ⟨fun _ _ => rfl, fun h => Error.noConfusion h,
        fun h1 _ => absurd rfl (h1 t)⟩
  | InvalidApiKey =>
      exact ⟨fun _ h => Error.noConfusion h, fun _ => rfl,
        fun _ h2 => absurd rfl h2⟩
  | Other t =>
      exact ⟨fun _ h => Error.noConfusion h, fun h => Error.noConfusion h,
        fun _ _ => rfl⟩

/-- Witness for C4: the three branches evaluated at concrete errors. -/
theorem into_response_mapping_witness :
    into_response (.JsonExtractorRejection "bad body") =
        (400, ⟨"bad body", "invalid_request_error", none⟩) ∧
      into_response .InvalidApiKey =
        (401, ⟨Error.display .InvalidApiKey, "invalid_request_error", none⟩) ∧
      into_response (.Other "boom") = (500, ⟨"boom", "server_error", none⟩) :=
  ⟨(into_response_mapping (.JsonExtractorRejection "bad body")).1 "bad body" rfl,
   (into_response_mapping .InvalidApiKey).2.1 rfl,
   (into_response_mapping (.Other "boom")).2.2
     (fun _ h => Error.noConfusion h) (fun h => Error.noConfusion h)⟩

/-- C5: on every branch of the error-to-response mapping the envelope's
`param` field is `none`; no branch ever sets it. -/
theorem into_response_param_none (e : Error) : (into_response e).2.param = none := by
  cases e <;> rfl

/-- C6 counterexample: the two branches do not apply the same transport
configuration — already with no TCP keepalive configured, the TLS branch
installs the HTTP/2 timer while the plaintext branch does not, so the two
transport configurations differ. -/
theorem transport_not_identical :
    tlsTransport none ≠ plainTransport none ∧
      (tlsTransport none).http2_timer = true ∧
      (plainTransport none).http2_timer = false := by
  refine ⟨fun h => ?_, rfl, rfl⟩
  have htimer : (tlsTransport none).http2_timer = (plainTransport none).http2_timer := by
    rw [h]
  simp [tlsTransport, plainTransport] at htimer

/-- C6 amended: both branches preserve HTTP/1.1 header case and derive the
same HTTP/2 keep-alive interval from the configured TCP keepalive seconds
(absent when not configured), but only the TLS branch installs the HTTP/2
timer; the plaintext branch installs none. -/
theorem transport_shared_options (tcp_keepalive : Option Nat) :
    (tlsTransport tcp_keepalive).preserve_header_case = true ∧
      (plainTransport tcp_keepalive).preserve_header_case = true ∧
      (tlsTransport tcp_keepalive).http2_keep_alive_interval = tcp_keepalive ∧
      (plainTransport tcp_keepalive).http2_keep_alive_interval = tcp_keepalive ∧
      (tlsTransport tcp_keepalive).http2_timer = true ∧
      (plainTransport tcp_keepalive).http2_timer = false :=
  ⟨rfl, rfl, rfl, rfl, rfl, rfl⟩

/-- C7: with the CORS layer exactly as `run` configures it (mirror for origin,
methods and headers; credentials on), the response's allow-origin,
allow-methods and allow-headers equal the request's `Origin`, requested
method and requested headers, and allow-credentials is true. -/
theorem cors_mirrors_request (o m h : String) :
    applyCors global_layer_cors ⟨some o, some m, some h⟩ =
      ⟨some o, some m, some h, true⟩ := rfl

/-- C8: with no file at the configuration path, `init_config` succeeds with
the all-defaults configuration; with a file present it returns exactly the
parser's outcome, so a parse failure is returned as the (fatal) startup
error. -/
theorem init_config_spec (parse : List UInt8 → Except Error Config) :
    init_config none parse = .ok Config.default ∧
      (∀ data, init_config (some data) parse = parse data) ∧
      (∀ data e, parse data = .error e → init_config (some data) parse = .error e) :=
  ⟨rfl, fun _ => rfl, fun _ _ h => h⟩

/-- Witness for C8: a parser that always fails makes `init_config` fail on an
existing file, while a missing file still yields the defaults. -/
theorem init_config_spec_witness :
    init_config none (fun _ => .error (Error.Other "bad yaml")) =
        .ok Config.default ∧
      init_config (some [65]) (fun _ => .error (Error.Other "bad yaml")) =
        .error (Error.Other "bad yaml") :=
  ⟨(init_config_spec (fun _ => .error (Error.Other "bad yaml"))).1,
   (init_config_spec (fun _ => .error (Error.Other "bad yaml"))).2.2 [65] _ rfl⟩

/-- Helper: every request ever accepted is, at any reachable state, either
still in flight or already completed. -/
theorem reachable_accounting {s : ServerState} (h : Reachable s) :
    ∀ r, r ∈ s.accepted → r ∈ s.inflight ∨ r ∈ s.completed := by
  induction h with
  | init => intro r hr; cases hr
  | step _ hstep ih =>
      intro r hr
      cases hstep with
      | accept q hq =>
          rcases List.mem_cons.mp hr with h1 | h2
          · exact Or.inl (h1 ▸ List.mem_cons_self _ _)
          · rcases ih r h2 with h3 | h4
            · exact Or.inl (List.mem_cons_of_mem _ h3)
            · exact Or.inr h4
      | signal hq => exact ih r hr
      | complete q hmem hp =>
          rcases ih r hr with h3 | h4
          · by_cases hrq : r = q
            · exact Or.inr (hrq ▸ List.mem_cons_self _ _)
            · exact Or.inl ((List.mem_erase_of_ne hrq).mpr h3)
          · exact Or.inr (List.mem_cons_of_mem _ h4)
      | drained hq he => exact ih r hr

/-- Helper: at any reachable stopped state no request is in flight. -/
theorem reachable_stopped_inflight_nil {s : ServerState} (h : Reachable s)
    (hs : s.phase = .stopped) : s.inflight = [] := by
  induction h with
  | init => cases hs
  | step _ hstep ih =>
      cases hstep with
      | accept q hq => cases hs
      | signal hq => cases hs
      | complete q hmem hp => exact absurd hs hp
      | drained hq he => exact he

/-- C9: in the shutdown machine, accepting a connection is only possible in
the `running` phase, so after the termination signal (which leaves `running`)
no new connection is accepted; no step re-enters `running`, and every step
moves the phase forward along the single path
`running -> draining -> stopped`; and at any reachable `stopped` state every
request that was ever accepted has completed and had its response
delivered. -/
theorem graceful_shutdown_drain :
    (∀ (s s' : ServerState) (r : Nat), SStep s (.accept r) s' →
        s.phase = .running) ∧
      (∀ (s s' : ServerState) (e : Event), SStep s e s' →
        s.phase ≠ .running → s'.phase ≠ .running) ∧
      (∀ (s s' : ServerState) (e : Event), SStep s e s' →
        s.phase.rank ≤ s'.phase.rank) ∧
      (∀ s : ServerState, Reachable s → s.phase = .stopped →
        ∀ r : Nat, r ∈ s.accepted → r ∈ s.completed) := by
  refine ⟨?_, ?_, ?_, ?_⟩
  · intro s s' r h
    cases h with
    | accept q hq => exact hq
  · intro s s' e h hn
    cases h with
    | accept q hq => exact absurd hq hn
    | signal hq => intro hc; exact Phase.noConfusion hc
    | complete q hmem hp => exact hn
    | drained hq he => intro hc; exact Phase.noConfusion hc
  · intro s s' e h
    cases h with
    | accept q hq => rw [hq]
    | signal hq => rw [hq]; exact Nat.zero_le _
    | complete q hmem hp => exact Nat.le_refl _
    | drained hq he => rw [hq]; exact Nat.le_succ _
  · intro s hreach hs r hr
    rcases reachable_accounting hreach r hr with h1 | h2
    · rw [reachable_stopped_inflight_nil hreach hs] at h1
      cases h1
    · exact h2

/-- Witness for C9: along the concrete trace accept 7, signal, complete 7,
drained, the reached stopped state has request 7 completed. -/
theorem graceful_shutdown_drain_witness :
    (7 : Nat) ∈ (⟨Phase.stopped, [7], [], [7]⟩ : ServerState).completed := by
  have h1 : SStep initialState (.accept 7)
      (⟨.running, [7], [7], []⟩ : ServerState) :=
    SStep.accept initialState 7 rfl
  have h2 : SStep (⟨.running, [7], [7], []⟩ : ServerState) .signal
      (⟨.draining, [7], [7], []⟩ : ServerState) :=
    SStep.signal _ rfl
  have h3 : SStep (⟨.draining, [7], [7], []⟩ : ServerState) (.complete 7)
      (⟨.draining, [7], [], [7]⟩ : ServerState) :=
    SStep.complete _ 7 (List.mem_singleton.mpr rfl) (by decide)
  have h4 : SStep (⟨.draining, [7], [], [7]⟩ : ServerState) .drained
      (⟨.stopped, [7], [], [7]⟩ : ServerState) :=
    SStep.drained _ rfl rfl
  have hreach : Reachable (⟨.stopped, [7], [], [7]⟩ : ServerState) :=
    Reachable.step
      (Reachable.step (Reachable.step (Reachable.step Reachable.init h1) h2) h3)
      h4
  exact graceful_shutdown_drain.2.2.2 _ hreach rfl 7 (List.mem_singleton.mpr rfl)

end Duckai
